import Mathlib

/-!
Shallow embedding of gitwatcher (src/main.go), a continuous-deployment
supervisor.  The program has two parts: a polling function (check) that
watches the tip of a GitHub branch and, on a changed hash, stores it and
spawns a deploy goroutine; and the deploy routine (runDeploy), whose
prologue tears down the previous deployment process group under a mutex
and whose body is an unbounded pull-launch retry loop bound to a
cancellable context.  Pure data and step functions below are translated
from the Go source; the external collaborators (the git commands, the
HTTP client, the OS process table, the wall clock) enter as explicit
inputs, so every definition is executable.
-/

namespace GitWatcher

/-- Character class used by strings.TrimSpace (ASCII whitespace; the
program never meets other Unicode space characters in a commit hash). -/
def isSpaceChar (c : Char) : Bool :=
  c = ' ' || c = '\t' || c = '\n' || c = '\r'

/-- Model of strings.TrimSpace from the Go standard library, applied to
the decoded sha at src/main.go line 102. -/
def trimSpace (s : String) : String :=
  ⟨((s.data.dropWhile isSpaceChar).reverse.dropWhile isSpaceChar).reverse⟩

/-- Outcome of the HTTP GET once client.Do returned without error: the
status code, and the JSON decode of the body into the anonymous struct
with the single field sha.  Go json.Decode reports an error only for a
malformed body; a well-formed body without a sha field leaves the zero
value, so a decoded body always yields a plain (possibly empty) string. -/
structure HttpResponse where
  statusCode : Nat
  body : Except String String

/-- Inputs one call to check obtains from its collaborators:
getCurrentBranch (git rev-parse, src/main.go lines 43-49),
getRepoOwnerAndName (git config, lines 51-61), and client.Do (line 82):
either a request error or a response. -/
structure PollInputs where
  branch : Except String String
  originURL : Except String String
  response : Except String HttpResponse

/-- Observable outcome of one call to check: the value of the
package-level lastSHA variable afterwards, the number of assignments to
lastSHA executed, and the number of runDeploy goroutines spawned. -/
structure CheckResult where
  lastSHA : String
  mutations : Nat
  spawned : Nat
deriving DecidableEq

/-- Translation of check (src/main.go lines 63-111), with the
package-level lastSHA passed in explicitly.  Every early return (branch
error, repo error, request error, non-200 status, decode error, unchanged
hash) carries zero mutations and zero spawns; the change branch (lines
107-110) assigns lastSHA once and spawns one runDeploy goroutine. -/
def check (lastSHA : String) (inp : PollInputs) : CheckResult :=
  match inp.branch with
  | Except.error _ => ⟨lastSHA, 0, 0⟩
  | Except.ok _ =>
    match inp.originURL with
    | Except.error _ => ⟨lastSHA, 0, 0⟩
    | Except.ok _ =>
      match inp.response with
      | Except.error _ => ⟨lastSHA, 0, 0⟩
      | Except.ok resp =>
        if resp.statusCode ≠ 200 then ⟨lastSHA, 0, 0⟩
        else
          match resp.body with
          | Except.error _ => ⟨lastSHA, 0, 0⟩
          | Except.ok sha =>
            let currentSHA := trimSpace sha
            if currentSHA = lastSHA then ⟨lastSHA, 0, 0⟩
            else ⟨currentSHA, 1, 1⟩

/-- True exactly when one of the five stages of check fails: branch
resolution, remote-URL resolution, the HTTP request itself, a non-200
status, or the JSON decode. -/
def pollFails (inp : PollInputs) : Bool :=
  match inp.branch with
  | Except.error _ => true
  | Except.ok _ =>
    match inp.originURL with
    | Except.error _ => true
    | Except.ok _ =>
      match inp.response with
      | Except.error _ => true
      | Except.ok resp =>
        if resp.statusCode ≠ 200 then true
        else
          match resp.body with
          | Except.error _ => true
          | Except.ok _ => false

/-- Folds check over a sequence of poll cycles, threading lastSHA, and
returns the final stored value (the main loop at src/main.go lines 37-40
calls check once per 5-second tick). -/
def runPolls (st : String) (l : List PollInputs) : String :=
  l.foldl (fun s i => (check s i).lastSHA) st

/-- Outcome of program startup (src/main.go lines 31-41): log.Fatal
prints its message and terminates the process with exit status 1 before
the polling loop starts, or the loop is entered. -/
inductive StartupResult
  | fatalExit (msg : String) (exitCode : Nat)
  | enterLoop
deriving DecidableEq

/-- Message passed to log.Fatal at src/main.go line 34. -/
def requiredFlagsMsg : String := "flags -token and -deploy are required"

/-- Translation of the flag check in main (src/main.go lines 32-35). -/
def mainStartup (token deploy : String) : StartupResult :=
  if token = "" ∨ deploy = "" then StartupResult.fatalExit requiredFlagsMsg 1
  else StartupResult.enterLoop

/-- The only signal the program ever sends (src/main.go line 123). -/
inductive Signal
  | SIGKILL
deriving DecidableEq

/-- Observable actions of the teardown prologue of runDeploy, in program
order.  A kill whose target is negative is addressed by the OS to the
entire process group whose id is the absolute value, exactly as
syscall.Kill(-pgid, syscall.SIGKILL) at line 123 does. -/
inductive TEvent
  | cancelPrev
  | kill (target : Int) (sig : Signal)
  | waitLeader
  | sleepSecs (n : Nat)
  | newLifetime
deriving DecidableEq

/-- Shared supervisor state read by the teardown prologue: whether
deployCancel is non-nil, and deployProcess (none: nil handle; some none:
a handle whose Process field is nil, i.e. never started; some (some pid):
a started process with that pid). -/
structure TeardownState where
  hasCancel : Bool
  proc : Option (Option Nat)

/-- Translation of the teardown prologue of runDeploy (src/main.go lines
114-129) as the list of observable actions it performs, in order, all
under the mutex.  The getpgid argument models syscall.Getpgid: none when
the OS no longer knows the pid (the error is discarded by the code, so no
kill is attempted and no error surfaces).  The trailing newLifetime is
the fresh context.WithCancel at line 128. -/
def teardownEvents (s : TeardownState) (getpgid : Nat → Option Nat) : List TEvent :=
  (if s.hasCancel then [TEvent.cancelPrev] else []) ++
    (match s.proc with
     | some (some pid) =>
       (match getpgid pid with
        | some pgid => [TEvent.kill (-(pgid : Int)) Signal.SIGKILL]
        | none => []) ++ [TEvent.waitLeader, TEvent.sleepSecs 2]
     | _ => []) ++ [TEvent.newLifetime]

/-- The fixed backoff, the package-level retryDelay of 10 seconds
(src/main.go line 28), counted here in seconds. -/
def retryDelay : Nat := 10

/-- Environment of one execution of the runDeploy retry loop: the instant
(seconds since loop entry) at which deployCancel is invoked for this
lifetime (none: never), and, for a git pull or a deploy command started
at instant t, its realized duration and whether it exits with status 0.
Commands are bound to the context by exec.CommandContext, so a command
whose context is cancelled by the instant it finishes is killed and
cannot report exit status 0; the loop accounts for that explicitly. -/
structure RunEnv where
  cancelAt : Option Nat
  pullExit0 : Nat → Bool
  pullDur : Nat → Nat
  runExit0 : Nat → Bool
  runDur : Nat → Nat

/-- Whether deployCtx.Done() is closed at instant t. -/
def isCancelled (cancelAt : Option Nat) (t : Nat) : Bool :=
  match cancelAt with
  | some c => decide (c ≤ t)
  | none => false

/-- Observable events of one iteration of the retry loop. -/
inductive REvent
  | ctxDone
  | gitPull (exit0 : Bool)
  | runCmd (exit0 : Bool)
  | sleep (secs : Nat)
deriving DecidableEq

/-- How the retry loop ended within the fuel bound. -/
inductive ROutcome
  | Cancelled
  | Done
  | Spinning
deriving DecidableEq

/-- Translation of the retry loop of runDeploy (src/main.go lines
131-163).  The fuel bounds how many iterations are examined (the Go loop
is unbounded); Spinning means the loop was still iterating when the fuel
ran out.  Each iteration: the select at line 132 observes the context
(with a default branch, so a closed Done channel wins); then git pull
runs, a failure sleeping retryDelay and continuing; then the deploy
command runs, a failure sleeping retryDelay and continuing; a clean exit
returns.  time.Sleep at lines 141 and 156 is not bound to the context,
so it always advances the clock by the full retryDelay.  The result is
the event trace, the outcome, and the instant at which the loop
returned (or ran out of fuel). -/
def runDeployLoop (env : RunEnv) : Nat → Nat → List REvent × ROutcome × Nat
  | 0, t => ([], ROutcome.Spinning, t)
  | fuel + 1, t =>
    if isCancelled env.cancelAt t then
      ([REvent.ctxDone], ROutcome.Cancelled, t)
    else
      let tp := t + env.pullDur t
      if env.pullExit0 t && !(isCancelled env.cancelAt tp) then
        let tr := tp + env.runDur tp
        if env.runExit0 tp && !(isCancelled env.cancelAt tr) then
          ([REvent.gitPull true, REvent.runCmd true], ROutcome.Done, tr)
        else
          let rest := runDeployLoop env fuel (tr + retryDelay)
          (REvent.gitPull true :: REvent.runCmd false :: REvent.sleep retryDelay :: rest.1,
            rest.2)
      else
        let rest := runDeployLoop env fuel (tp + retryDelay)
        (REvent.gitPull false :: REvent.sleep retryDelay :: rest.1, rest.2)

/-- The three shared supervisor state fields of src/main.go lines 22-27
that the specification names: the last observed commit identifier, the
current lifetime and its cancel handle, and the active process handle. -/
inductive SharedField
  | lastSHAField
  | deployCtxField
  | deployCancelField
  | deployProcessField
deriving DecidableEq

/-- Whether a shared field is the last observed commit identifier. -/
def isLastSHA (f : SharedField) : Bool :=
  match f with
  | SharedField.lastSHAField => true
  | _ => false

/-- Whether a shared field is the current lifetime (deployCtx). -/
def isDeployCtx (f : SharedField) : Bool :=
  match f with
  | SharedField.deployCtxField => true
  | _ => false

/-- One source-level access to a shared field: which field, whether the
access is a write, whether the mutex mu is held on that line, and the
line number in src/main.go. -/
structure FieldAccess where
  field : SharedField
  isWrite : Bool
  underLock : Bool
  line : Nat
deriving DecidableEq

/-- The accesses performed by check, which never touches mu: line 103
reads lastSHA for the comparison, line 107 writes it, line 108 reads it
for the log message. -/
def checkAccesses : List FieldAccess :=
  [⟨SharedField.lastSHAField, false, false, 103⟩,
   ⟨SharedField.lastSHAField, true, false, 107⟩,
   ⟨SharedField.lastSHAField, false, false, 108⟩]

/-- The accesses performed by runDeploy: lines 115-128 run between
mu.Lock (line 114) and mu.Unlock (line 129), and line 151 between mu.Lock
(line 150) and mu.Unlock (line 152); the reads of deployCtx in the retry
loop at lines 133, 139 and 145 hold no lock. -/
def runDeployAccesses : List FieldAccess :=
  [⟨SharedField.deployCancelField, false, true, 115⟩,
   ⟨SharedField.deployCancelField, false, true, 117⟩,
   ⟨SharedField.deployProcessField, false, true, 119⟩,
   ⟨SharedField.deployProcessField, false, true, 121⟩,
   ⟨SharedField.deployProcessField, false, true, 125⟩,
   ⟨SharedField.deployCtxField, true, true, 128⟩,
   ⟨SharedField.deployCancelField, true, true, 128⟩,
   ⟨SharedField.deployCtxField, false, false, 133⟩,
   ⟨SharedField.deployCtxField, false, false, 139⟩,
   ⟨SharedField.deployCtxField, false, false, 145⟩,
   ⟨SharedField.deployProcessField, true, true, 151⟩]

/-- All accesses to the three shared fields in the program. -/
def sharedAccesses : List FieldAccess := checkAccesses ++ runDeployAccesses

/-- Poll cycle delivering a 200 response whose decoded sha is abc. -/
def pollShaAbc : PollInputs :=
  ⟨Except.ok "main", Except.ok "owner/repo", Except.ok ⟨200, Except.ok "abc"⟩⟩

/-- Poll cycle delivering a 200 response whose body is valid JSON without
a sha field, so the decoded zero value is the empty string. -/
def pollNoSha : PollInputs :=
  ⟨Except.ok "main", Except.ok "owner/repo", Except.ok ⟨200, Except.ok ""⟩⟩

/-- Poll cycle whose branch resolution fails. -/
def pollBranchErr : PollInputs :=
  ⟨Except.error "not a git repository", Except.ok "owner/repo",
   Except.ok ⟨200, Except.ok "abc"⟩⟩

/-- Teardown state with a previous cancel function and a started previous
process with pid 42. -/
def tdActive : TeardownState := ⟨true, some (some 42)⟩

/-- Getpgid while pid 42 is alive as the leader of group 42. -/
def pgidAlive : Nat → Option Nat := fun _ => some 42

/-- Teardown state at the very first deploy: no cancel function, no
process handle. -/
def tdIdle : TeardownState := ⟨false, none⟩

/-- Getpgid when the process is already gone from the OS. -/
def pgidGone : Nat → Option Nat := fun _ => none

/-- Loop environment of the C1 counterexample: instantaneous pulls that
always fail, cancellation signalled at instant 3, inside the first
backoff sleep (which spans instants 0 to 10). -/
def c1env : RunEnv := ⟨some 3, fun _ => false, fun _ => 0, fun _ => true, fun _ => 0⟩

/-- Loop environment of the C1 witness: the pull takes 1 second and
fails, cancellation is signalled at instant 5, inside the backoff sleep
(instants 1 to 11). -/
def c1wenv : RunEnv := ⟨some 5, fun _ => false, fun _ => 1, fun _ => true, fun _ => 0⟩

/-- Loop environment of the C5 witness: pulls always succeed in 1 second,
the deploy command always exits nonzero after 2 seconds, the lifetime is
never cancelled. -/
def c5env : RunEnv := ⟨none, fun _ => true, fun _ => 1, fun _ => false, fun _ => 2⟩

/-- Evaluation of check on a fully successful poll: the decoded sha is
trimmed and compared with the stored value; equality is a no-op,
inequality assigns lastSHA once and spawns one runDeploy goroutine. -/
theorem check_ok_eq (st br orig sha : String) :
    check st ⟨Except.ok br, Except.ok orig, Except.ok ⟨200, Except.ok sha⟩⟩ =
      if trimSpace sha = st then ⟨st, 0, 0⟩ else ⟨trimSpace sha, 1, 1⟩ := rfl

/-- Claim C3 (confirmed): on a successful poll the stored identifier is
updated iff the fetched (trimmed) hash differs from it; an equal hash
performs no state mutation and starts no runDeploy task, a differing hash
assigns lastSHA exactly once and starts exactly one runDeploy task. -/
theorem C3_poll_update_iff_changed (st br orig sha : String) :
    check st ⟨Except.ok br, Except.ok orig, Except.ok ⟨200, Except.ok sha⟩⟩ =
      if trimSpace sha = st then ⟨st, 0, 0⟩ else ⟨trimSpace sha, 1, 1⟩ :=
  check_ok_eq st br orig sha

/-- Claim C3 witness: concrete successful polls, one changed and one
unchanged. -/
theorem C3_witness :
    check "old" ⟨Except.ok "main", Except.ok "owner/repo",
        Except.ok ⟨200, Except.ok "new"⟩⟩ =
      if trimSpace "new" = "old" then ⟨"old", 0, 0⟩ else ⟨trimSpace "new", 1, 1⟩ :=
  C3_poll_update_iff_changed "old" "main" "owner/repo" "new"

/-- Claim C4 (confirmed): a poll cycle that fails at any stage leaves
lastSHA unchanged, performs no assignment and spawns no runDeploy task;
check is a total function here, exactly as in the source every failure is
a logged early return, so the supervisor loop does not crash. -/
theorem C4_failed_poll_skips (st : String) (inp : PollInputs)
    (h : pollFails inp = true) : check st inp = ⟨st, 0, 0⟩ := by
  obtain ⟨b, o, r⟩ := inp
  cases b with
  | error e => rfl
  | ok br =>
    cases o with
    | error e => rfl
    | ok orig =>
      cases r with
      | error e => rfl
      | ok resp =>
        obtain ⟨sc, body⟩ := resp
        by_cases hsc : sc = 200
        · subst hsc
          cases body with
          | error e => rfl
          | ok sha => simp [pollFails] at h
        · simp [check, hsc]

/-- Claim C4 witness: a concrete poll whose branch resolution fails is a
no-op. -/
theorem C4_witness : check "cur" pollBranchErr = ⟨"cur", 0, 0⟩ :=
  C4_failed_poll_skips "cur" pollBranchErr rfl

/-- Claim C10 (confirmed): a 200 response whose valid JSON body has no
non-empty sha field decodes to the empty string, and when the stored
value is non-empty this counts as a detected change: lastSHA is
overwritten with the empty string (one assignment) and one new runDeploy
task is started. -/
theorem C10_empty_sha_change (st br orig sha : String)
    (hsha : trimSpace sha = "") (hst : st ≠ "") :
    check st ⟨Except.ok br, Except.ok orig, Except.ok ⟨200, Except.ok sha⟩⟩ =
      ⟨"", 1, 1⟩ := by
  rw [check_ok_eq, hsha, if_neg fun hs => hst hs.symm]

/-- Claim C10 witness: a missing sha field while abc is stored overwrites
the store with the empty string and spawns a deploy. -/
theorem C10_witness : check "abc" pollNoSha = ⟨"", 1, 1⟩ :=
  C10_empty_sha_change "abc" "main" "owner/repo" "" rfl (by decide)

/-- Claim C7 counterexample: lastSHA starts at its initial empty value, a
first successful poll stores abc, and a second successful poll (valid
JSON without a sha field) sets it back to the previously held empty
value: the stored identifier is reverted, so it is not monotone. -/
theorem C7_counterexample :
    runPolls "" [pollShaAbc] = "abc" ∧
    runPolls "" [pollShaAbc, pollNoSha] = "" ∧ ("abc" : String) ≠ "" := by
  decide

/-- Claim C7 amended: lastCommit is last-writer-wins, not monotone: after
any history whatsoever, a successful poll whose trimmed hash differs from
the currently stored value replaces it with that hash, and an equal hash
leaves it unchanged; nothing prevents the new hash from being a
previously held value (the empty initial value included). -/
theorem C7_last_writer_wins (st : String) (hist : List PollInputs)
    (br orig sha : String) :
    runPolls st
        (hist ++ [⟨Except.ok br, Except.ok orig, Except.ok ⟨200, Except.ok sha⟩⟩]) =
      if trimSpace sha = runPolls st hist then runPolls st hist
      else trimSpace sha := by
  unfold runPolls
  rw [List.foldl_append]
  simp only [List.foldl_cons, List.foldl_nil]
  rw [check_ok_eq, apply_ite CheckResult.lastSHA]

/-- Claim C7 witness: a concrete last poll overwriting the stored value
after a one-poll history. -/
theorem C7_witness :
    runPolls ""
        ([pollShaAbc] ++
          [⟨Except.ok "main", Except.ok "owner/repo", Except.ok ⟨200, Except.ok ""⟩⟩]) =
      if trimSpace "" = runPolls "" [pollShaAbc] then runPolls "" [pollShaAbc]
      else trimSpace "" :=
  C7_last_writer_wins "" [pollShaAbc] "main" "owner/repo" ""

/-- Claim C9 (confirmed): startup terminates the process fatally, with
the descriptive message and exit status 1, iff the token flag or the
deploy flag is empty; when both are present the polling loop is
entered. -/
theorem C9_required_flags (token deploy : String) :
    (mainStartup token deploy = StartupResult.fatalExit requiredFlagsMsg 1 ↔
      (token = "" ∨ deploy = "")) ∧
    (mainStartup token deploy = StartupResult.enterLoop ↔
      ¬(token = "" ∨ deploy = "")) := by
  by_cases h : token = "" ∨ deploy = "" <;> simp [mainStartup, h]

/-- Claim C9 witness: a missing token flag is fatal at startup. -/
theorem C9_witness :
    mainStartup "" "npm start" = StartupResult.fatalExit requiredFlagsMsg 1 :=
  (C9_required_flags "" "npm start").1.mpr (Or.inl rfl)

/-- Claim C2 (confirmed): when a started previous process exists and the
OS still knows it (Getpgid succeeds), teardown performs, after the
optional cancellation of the previous context and before the fresh
lifetime is created, exactly this sequence: one SIGKILL addressed to the
entire process group (negative target -pgid), the blocking reap of the
leader, and the fixed 2-second pause. -/
theorem C2_teardown_sequence (s : TeardownState) (getpgid : Nat → Option Nat)
    (pid pgid : Nat) (hp : s.proc = some (some pid))
    (hg : getpgid pid = some pgid) :
    teardownEvents s getpgid =
      (if s.hasCancel then [TEvent.cancelPrev] else []) ++
        [TEvent.kill (-(pgid : Int)) Signal.SIGKILL, TEvent.waitLeader,
         TEvent.sleepSecs 2, TEvent.newLifetime] := by
  simp [teardownEvents, hp, hg]

/-- Claim C2 witness: teardown of the live pid-42 tree kills group 42,
reaps, pauses 2 seconds, then creates the fresh lifetime. -/
theorem C2_witness :
    teardownEvents tdActive pgidAlive =
      [TEvent.cancelPrev, TEvent.kill (-42) Signal.SIGKILL, TEvent.waitLeader,
       TEvent.sleepSecs 2, TEvent.newLifetime] :=
  C2_teardown_sequence tdActive pgidAlive 42 42 rfl rfl

/-- Claim C8 (confirmed): when no previous process is active (nil handle,
nil Process field, or a pid the OS no longer knows), teardown sends no
kill at all and raises no error (the Getpgid error is discarded by the
code), and it still creates the fresh lifetime, so the subsequent launch
proceeds normally. -/
theorem C8_teardown_idempotent (s : TeardownState) (getpgid : Nat → Option Nat)
    (h : s.proc = none ∨ s.proc = some none ∨
      ∃ pid, s.proc = some (some pid) ∧ getpgid pid = none) :
    (∀ tgt sig, TEvent.kill tgt sig ∉ teardownEvents s getpgid) ∧
    TEvent.newLifetime ∈ teardownEvents s getpgid := by
  refine ⟨fun tgt sig => ?_, ?_⟩
  · rcases h with h1 | h1 | ⟨pid, hp, hg⟩
    · cases hc : s.hasCancel <;> simp [teardownEvents, h1, hc]
    · cases hc : s.hasCancel <;> simp [teardownEvents, h1, hc]
    · cases hc : s.hasCancel <;> simp [teardownEvents, hp, hg, hc]
  · rcases h with h1 | h1 | ⟨pid, hp, hg⟩
    · cases hc : s.hasCancel <;> simp [teardownEvents, h1, hc]
    · cases hc : s.hasCancel <;> simp [teardownEvents, h1, hc]
    · cases hc : s.hasCancel <;> simp [teardownEvents, hp, hg, hc]

/-- Claim C8 witness: teardown with no tracked handle sends no kill (in
particular not to group 7) and still creates the fresh lifetime. -/
theorem C8_witness :
    TEvent.kill (-7) Signal.SIGKILL ∉ teardownEvents tdIdle pgidGone ∧
    TEvent.newLifetime ∈ teardownEvents tdIdle pgidGone :=
  ⟨(C8_teardown_idempotent tdIdle pgidGone (Or.inl rfl)).1 (-7) Signal.SIGKILL,
   (C8_teardown_idempotent tdIdle pgidGone (Or.inl rfl)).2⟩

/-- Claim C5 (confirmed): with a deploy command that always exits nonzero
and a lifetime that is never cancelled, every iteration of the retry loop
redoes the git pull, then launches and runs the command, then sleeps the
fixed 10-second backoff, forever: for every fuel the loop is still
spinning (never Done, never Cancelled, no retry cap) and its trace is
exactly that pull-run-sleep iteration repeated fuel times, so no
iteration ever reaches the launch without a fresh pull before it. -/
theorem C5_infinite_retry (env : RunEnv) (hc : env.cancelAt = none)
    (hp : ∀ s, env.pullExit0 s = true) (hr : ∀ s, env.runExit0 s = false) :
    retryDelay = 10 ∧
    ∀ fuel t,
      (runDeployLoop env fuel t).1 =
        (List.replicate fuel
          [REvent.gitPull true, REvent.runCmd false, REvent.sleep retryDelay]).flatten ∧
      (runDeployLoop env fuel t).2.1 = ROutcome.Spinning := by
  refine ⟨rfl, fun fuel => ?_⟩
  induction fuel with
  | zero => intro t; exact ⟨rfl, rfl⟩
  | succ n ih =>
    intro t
    have hnc : isCancelled env.cancelAt t = false := by simp [isCancelled, hc]
    constructor
    · simp [runDeployLoop, hnc, hc, isCancelled, hp, hr, ih, List.replicate_succ]
    · simp [runDeployLoop, hnc, hc, isCancelled, hp, hr, ih]

/-- Claim C5 witness: two examined iterations of the always-failing
deploy under c5env give two pull-run-sleep rounds and a still-spinning
loop. -/
theorem C5_witness :
    (runDeployLoop c5env 2 0).1 =
      (List.replicate 2
        [REvent.gitPull true, REvent.runCmd false, REvent.sleep retryDelay]).flatten ∧
    (runDeployLoop c5env 2 0).2.1 = ROutcome.Spinning :=
  (C5_infinite_retry c5env rfl (fun _ => rfl) (fun _ => rfl)).2 2 0

/-- Claim C1 counterexample: under c1env the pull fails instantly and the
cancellation is signalled at instant 3, inside the backoff sleep spanning
instants 0 to 10; yet the invocation reaches Cancelled only at instant
10, after the full fixed delay, so an early cancellation does not
interrupt the sleep and does not move the invocation to Cancelled before
the delay has been waited out. -/
theorem C1_counterexample :
    c1env.cancelAt = some 3 ∧
    runDeployLoop c1env 2 0 =
      ([REvent.gitPull false, REvent.sleep retryDelay, REvent.ctxDone],
        ROutcome.Cancelled, 10) ∧
    ¬ ((runDeployLoop c1env 2 0).2.2 ≤ 3) := by
  decide

/-- Claim C1 amended: entering RetryBackoff after a failed pull (first
conjunct) or after a nonzero deploy exit (second conjunct) sleeps the
whole fixed retryDelay even when the lifetime is cancelled during the
backoff, because time.Sleep is not bound to the context; the cancellation
is then observed by the select at the top of the next iteration, and the
invocation moves to Cancelled exactly at the end of the full sleep, with
no further pull, launch or run performed for the stale lifetime. -/
theorem C1_backoff_not_interrupted (env : RunEnv) (fuel t c : Nat)
    (hnc : isCancelled env.cancelAt t = false) (hca : env.cancelAt = some c) :
    ((env.pullExit0 t && !(isCancelled env.cancelAt (t + env.pullDur t))) = false →
      c ≤ t + env.pullDur t + retryDelay →
      runDeployLoop env (fuel + 1 + 1) t =
        ([REvent.gitPull false, REvent.sleep retryDelay, REvent.ctxDone],
          ROutcome.Cancelled, t + env.pullDur t + retryDelay)) ∧
    ((env.pullExit0 t && !(isCancelled env.cancelAt (t + env.pullDur t))) = true →
      (env.runExit0 (t + env.pullDur t) &&
        !(isCancelled env.cancelAt
            (t + env.pullDur t + env.runDur (t + env.pullDur t)))) = false →
      c ≤ t + env.pullDur t + env.runDur (t + env.pullDur t) + retryDelay →
      runDeployLoop env (fuel + 1 + 1) t =
        ([REvent.gitPull true, REvent.runCmd false, REvent.sleep retryDelay,
            REvent.ctxDone],
          ROutcome.Cancelled,
          t + env.pullDur t + env.runDur (t + env.pullDur t) + retryDelay)) := by
  constructor
  · intro h1 h2
    have hdone :
        isCancelled env.cancelAt (t + env.pullDur t + retryDelay) = true := by
      simp [isCancelled, hca, h2]
    simp [runDeployLoop, hnc, h1, hdone]
  · intro h1 hq h2
    have hdone :
        isCancelled env.cancelAt
          (t + env.pullDur t + env.runDur (t + env.pullDur t) + retryDelay) = true := by
      simp [isCancelled, hca, h2]
    simp [runDeployLoop, hnc, h1, hq, hdone]

/-- Claim C1 witness: under c1wenv (pull fails after 1 second,
cancellation at instant 5) the loop sleeps the full backoff and exits
Cancelled at instant 11, the end of the sleep. -/
theorem C1_witness :
    runDeployLoop c1wenv 2 0 =
      ([REvent.gitPull false, REvent.sleep retryDelay, REvent.ctxDone],
        ROutcome.Cancelled, 11) :=
  (C1_backoff_not_interrupted c1wenv 0 0 5 rfl rfl).1 rfl (by decide)

/-- Claim C6 counterexample: the write of lastSHA at line 107 is an
access to a shared supervisor field performed with no lock held, so it is
false that every read and write of the shared fields occurs while holding
the mutex. -/
theorem C6_counterexample :
    (⟨SharedField.lastSHAField, true, false, 107⟩ : FieldAccess) ∈ sharedAccesses ∧
    (sharedAccesses.all fun a => a.underLock) = false := by
  decide

/-- Claim C6 amended: every write to the lifetime, cancel-handle and
process-handle fields does occur under the mutex, but every access to
lastSHA (the compare at line 103 and the set at line 107 included) holds
no lock, and the retry loop reads deployCtx at three places with no lock
held; the compare-then-set of lastCommit is therefore not made atomic by
the lock (it is serialized only because the single polling goroutine is
the only code touching lastSHA). -/
theorem C6_lock_discipline :
    (sharedAccesses.all fun a =>
      !a.isWrite || isLastSHA a.field || a.underLock) = true ∧
    (sharedAccesses.all fun a => !(isLastSHA a.field) || !a.underLock) = true ∧
    (sharedAccesses.filter fun a => isDeployCtx a.field && !a.underLock).length = 3 := by
  decide

end GitWatcher
